import Mathlib

/-!
Shallow embedding of the `pyusbmuxd` utility (files `pyusbmuxd/usb_manager.py`
and `pyusbmuxd/usbmux.py`) together with proofs about its device scanner,
mode classifier and mode-switch control transfer.

Python machine behaviour is modelled explicitly:
* exceptions become `Except PyError`,
* USB side effects (control transfers, writes, kernel-driver detaches,
  configuration changes) become an explicit `Effect` trace,
* the device registry (a Python `dict`) becomes an association list with
  overwrite-on-existing-key insertion.
-/

namespace Pyusbmuxd

/-- A USB endpoint descriptor, with the fields consumed by the repository. -/
structure Endpoint where
  bEndpointAddress : Nat
deriving DecidableEq, Repr

/-- A USB interface descriptor, with the fields consumed by the repository. -/
structure Interface where
  bInterfaceClass : Nat
  bInterfaceSubClass : Nat
  bInterfaceProtocol : Nat
  bInterfaceNumber : Nat
  bNumEndpoints : Nat
  endpoints : List Endpoint
deriving DecidableEq, Repr

/-- A USB configuration descriptor: numeric value plus its interface list. -/
structure Configuration where
  bConfigurationValue : Nat
  interfaces : List Interface
deriving DecidableEq, Repr

/-- A `usb.core.Device` handle, restricted to the attributes the repository
reads: vendor/product id, bus/address, serial number, the backend object
(modelled as an opaque token) and the configuration descriptor list. -/
structure Device where
  idVendor : Nat
  idProduct : Nat
  bus : Nat
  address : Nat
  serial_number : String
  backend : Nat
  configurations : List Configuration
deriving DecidableEq, Repr

/-- Python exceptions that the embedded code can raise. -/
inductive PyError where
  /-- the built-in `ValueError`, with its message -/
  | valueError (msg : String)
  /-- the built-in `IndexError` from out-of-range list indexing -/
  | indexError
  /-- `PyUsbMuxException` from `pyusbmuxd.exceptions` -/
  | pyUsbMuxException (msg : String)
  /-- Modelled from the spec: `InvalidModeNameError`, the error kind the spec
  assigns to an unknown mode string; `pyusbmuxd/exceptions.py` is not among
  the provided sources, so this error kind is taken from the spec's error
  list and is distinct from the built-in `ValueError`. -/
  | invalidModeNameError
deriving DecidableEq, Repr

/-- The data-or-length argument of pyusb's `ctrl_transfer`: either an
explicit data payload or a bare expected length with no payload. -/
inductive DataOrLength where
  | data (bs : List Nat)
  | length (n : Nat)
deriving DecidableEq, Repr

/-- The argument object handed to `usb.core.Device.write`: either actual
bytes, or (as in `IDevice.send`) the device's backend object. -/
inductive WriteArg where
  | bytes (bs : List Nat)
  | backendObj (id : Nat)
deriving DecidableEq, Repr

/-- One observable USB side effect issued to a device. -/
inductive Effect where
  /-- a control transfer `(bmRequestType, bRequest, wValue, wIndex, data/len)` -/
  | ctrlTransfer (bmRequestType bRequest wValue : Nat) (wIndex : Int)
      (dataOrLength : DataOrLength)
  /-- a bulk write via `usb.core.Device.write` -/
  | usbWrite (arg : WriteArg)
  /-- `usb.core.Device.detach_kernel_driver` -/
  | detachKernelDriver (interfaceNumber : Nat)
  /-- `usb.core.Device.set_configuration` -/
  | setConfiguration (value : Nat)
deriving DecidableEq, Repr

/-! Constants from the top of `usb_manager.py`. -/

def INTERFACE_CLASS : Nat := 255

def INTERFACE_SUBCLASS : Nat := 254

def INTERFACE_PROTOCOL : Nat := 2

def VID_APPLE : Nat := 0x5ac

def PID_RANGE_LOW : Nat := 0x1290

def PID_RANGE_MAX : Nat := 0x12af

def PID_APPLE_T2_COPROCESSOR : Nat := 0x8600

def PID_APPLE_SILICON_RESTORE_LOW : Nat := 0x1901

def PID_APPLE_SILICON_RESTORE_MAX : Nat := 0x1905

def APPLE_VEND_SPECIFIC_GET_MODE : Nat := 0x45

def APPLE_VEND_SPECIFIC_SET_MODE : Nat := 0x52

def LIBUSB_ENDPOINT_IN : Nat := 0x80

def LIBUSB_ENDPOINT_OUT : Nat := 0x00

/-! The `IntEnum` classes `LibUSBRequestType`, `LibUSBEndpointDirection`
and `LibUSBRequestRecipient`, as their integer values. -/

def LibUSBRequestType.STANDARD : Nat := 0x00 <<< 5

def LibUSBRequestType.CLASS : Nat := 0x01 <<< 5

def LibUSBRequestType.VENDOR : Nat := 0x02 <<< 5

def LibUSBRequestType.RESERVED : Nat := 0x03 <<< 5

def LibUSBEndpointDirection.IN : Nat := 0x80

def LibUSBEndpointDirection.OUT : Nat := 0x00

def LibUSBRequestRecipient.DEVICE : Nat := 0x00

def LibUSBRequestRecipient.INTERFACE : Nat := 0x01

def LibUSBRequestRecipient.ENDPOINT : Nat := 0x02

def LibUSBRequestRecipient.OTHER : Nat := 0x03

/-- The `Mode` enumeration (`IntEnum`) from `usb_manager.py`. -/
inductive Mode where
  | INITIAL
  | VALERIA
  | CDC_NCM
deriving DecidableEq, Repr

/-- The integer value of a `Mode` member (`INITIAL = 1`, `VALERIA = 2`,
`CDC_NCM = 3`). -/
def Mode.value : Mode → Nat
  | .INITIAL => 1
  | .VALERIA => 2
  | .CDC_NCM => 3

/-- The `name` attribute of a `Mode` member. -/
def Mode.name : Mode → String
  | .INITIAL => "INITIAL"
  | .VALERIA => "VALERIA"
  | .CDC_NCM => "CDC_NCM"

/-- Enum member iteration order (`for k in cls` over an `IntEnum` visits
members in definition order). -/
def Mode.members : List Mode := [.INITIAL, .VALERIA, .CDC_NCM]

/-- `Mode.create_from_name`: scan the members in order for a matching
`name`; raise `ValueError('invalid mode name')` when none matches. -/
def Mode.create_from_name (name : String) : Except PyError Mode :=
  match Mode.members.find? (fun k => k.name == name) with
  | some k => .ok k
  | none => .error (.valueError "invalid mode name")

/-- The Valeria-signature test from the loop body of `IDevice.mode`
(`class == INTERFACE_CLASS and subclass == 42 and protocol == 255`). -/
def isValeriaInterface (interface : Interface) : Bool :=
  interface.bInterfaceClass == INTERFACE_CLASS &&
    interface.bInterfaceSubClass == 42 && interface.bInterfaceProtocol == 255

/-- The CDC-NCM test from the loop body of `IDevice.mode`
(`class == 2 and subclass == 0xd`). -/
def isCdcNcmInterface (interface : Interface) : Bool :=
  interface.bInterfaceClass == 2 && interface.bInterfaceSubClass == 0xd

/-- The usbmux-signature test from the loop body of `IDevice.mode`
(`class == INTERFACE_CLASS and subclass == INTERFACE_SUBCLASS and
protocol == INTERFACE_PROTOCOL`). -/
def isUsbmuxInterface (interface : Interface) : Bool :=
  interface.bInterfaceClass == INTERFACE_CLASS &&
    interface.bInterfaceSubClass == INTERFACE_SUBCLASS &&
    interface.bInterfaceProtocol == INTERFACE_PROTOCOL

/-- One iteration of the `for interface in config.interfaces()` loop of
`IDevice.mode`: each of the three flags becomes true when its signature
matches and stays true afterwards. -/
def scanStep (flags : Bool × Bool × Bool) (interface : Interface) :
    Bool × Bool × Bool :=
  let has_valeria := flags.1 || isValeriaInterface interface
  let has_cdc_ncm := flags.2.1 || isCdcNcmInterface interface
  let has_usbmux := flags.2.2 || isUsbmuxInterface interface
  (has_valeria, has_cdc_ncm, has_usbmux)

/-- The single pass of `IDevice.mode` over `config.interfaces()` setting the
three flags `(has_valeria, has_cdc_ncm, has_usbmux)`, translated as a fold
starting from `(False, False, False)`. -/
def scanInterfaces (interfaces : List Interface) : Bool × Bool × Bool :=
  interfaces.foldl scanStep (false, false, false)

/-- The `IDevice.mode` property getter. Python list indexing
(`configurations()[4]`) is modelled as raising `IndexError` when out of
range; the implicit `return None` at the end of the Python function is the
final `.ok none`. -/
def IDevice.mode (d : Device) : Except PyError (Option Mode) :=
  let num_configurations := d.configurations.length
  if num_configurations ≤ 4 then
    .ok (some Mode.INITIAL)
  else if num_configurations ≠ 5 then
    .ok none
  else
    match d.configurations[4]? with
    | none => .error .indexError
    | some config =>
      let flags := scanInterfaces config.interfaces
      let has_valeria := flags.1
      let has_cdc_ncm := flags.2.1
      let has_usbmux := flags.2.2
      if has_valeria && has_usbmux then .ok (some Mode.VALERIA)
      else if has_cdc_ncm && has_usbmux then .ok (some Mode.CDC_NCM)
      else .ok none

/-- `IDevice._submit_vendor_specific`: builds the vendor request type
`VENDOR | IN | DEVICE` and issues one control transfer. The returned list
is the effect trace (exactly the one transfer). -/
def IDevice.submit_vendor_specific (_d : Device) (b_request : Nat) (w_value : Nat)
    (w_index : Int) (data_or_w_length : DataOrLength) : List Effect :=
  let request_type := LibUSBRequestType.VENDOR ||| LibUSBEndpointDirection.IN |||
    LibUSBRequestRecipient.DEVICE
  [Effect.ctrlTransfer request_type b_request w_value w_index data_or_w_length]

/-- The `IDevice.mode` property setter: `int(value)` is the `Int` argument
(`Union[Mode, int]` in Python — a `Mode` member contributes its integer
value), and the defaults `w_value = 0`, `data_or_w_length = 1` are filled
in as at the call site. -/
def IDevice.mode_set (d : Device) (value : Int) : List Effect :=
  IDevice.submit_vendor_specific d APPLE_VEND_SPECIFIC_SET_MODE 0 value
    (DataOrLength.length 1)

/-- `IDevice.send(data)`: calls `self.usb_device.write(self.usb_device.backend)`
— the `data` argument is never used. -/
def IDevice.send (d : Device) (_data : List Nat) : List Effect :=
  [Effect.usbWrite (WriteArg.backendObj d.backend)]

/-- `IDevice._set_valid_configuration`: its body begins with an unconditional
`return` (usb_manager.py line 149), so lines 151-208 (interface matching,
kernel-driver detach, `set_configuration`, the `PyUsbMuxException` raise) are
unreachable; the call returns `None` with no side effect on every device. -/
def IDevice.set_valid_configuration (_d : Device) : Except PyError Unit × List Effect :=
  (.ok (), [])

/-- A constructed `IDevice` handle wrapping the `usb.core.Device`. -/
structure IDevice where
  usb_device : Device
deriving DecidableEq, Repr

/-- `IDevice.__init__`: store the device and call `_set_valid_configuration`;
an exception there would propagate out of the constructor. -/
def IDevice.init (d : Device) : Except PyError IDevice × List Effect :=
  match IDevice.set_valid_configuration d with
  | (.ok _, effs) => (.ok ⟨d⟩, effs)
  | (.error e, effs) => (.error e, effs)

/-- The `UsbManager.devices` registry: a Python `dict` keyed by serial
number, modelled as an association list. -/
abbrev Registry := List (String × IDevice)

/-- The key set of a registry. -/
def keys (st : Registry) : List String :=
  st.map Prod.fst

/-- Python `dict` assignment `st[k] = v`: overwrite in place when the key is
present, append otherwise. -/
def dictInsert (st : Registry) (k : String) (v : IDevice) : Registry :=
  if (keys st).contains k then
    st.map (fun p => if p.1 = k then (k, v) else p)
  else
    st ++ [(k, v)]

/-- `UsbManager._handle_device`: the two early-return guards (vendor id,
product id ranges), then `self.devices[device.serial_number] = IDevice(device)`.
Returns the updated registry (or a propagated exception) and the effect
trace. -/
def UsbManager.handle_device (st : Registry) (device : Device) :
    Except PyError Registry × List Effect :=
  if device.idVendor ≠ VID_APPLE then
    (.ok st, [])
  else if (device.idProduct ≠ PID_APPLE_T2_COPROCESSOR) ∧
      ((device.idProduct < PID_APPLE_SILICON_RESTORE_LOW) ∨
       (device.idProduct > PID_APPLE_SILICON_RESTORE_MAX)) ∧
      ((device.idProduct < PID_RANGE_LOW) ∨
       (device.idProduct > PID_RANGE_MAX)) then
    (.ok st, [])
  else
    match IDevice.init device with
    | (.ok idev, effs) => (.ok (dictInsert st device.serial_number idev), effs)
    | (.error e, effs) => (.error e, effs)

/-- The `for device in devices` loop of `UsbManager.update_device_list`:
an exception from `_handle_device` aborts the loop and propagates. -/
def UsbManager.update_loop (st : Registry) : List Device → Except PyError Registry × List Effect
  | [] => (.ok st, [])
  | device :: rest =>
    match UsbManager.handle_device st device with
    | (.ok st2, effs) =>
      let (r, effs2) := UsbManager.update_loop st2 rest
      (r, effs ++ effs2)
    | (.error e, effs) => (.error e, effs)

/-- `UsbManager.update_device_list`: `find(find_all=True)` yields either
`None` (modelled `none`) or an iterable of devices (modelled `some ds`);
on `None` the method returns at once. -/
def UsbManager.update_device_list (st : Registry) (devices : Option (List Device)) :
    Except PyError Registry × List Effect :=
  match devices with
  | none => (.ok st, [])
  | some ds => UsbManager.update_loop st ds

/-- `USB._handle_device` from `usbmux.py`: same vendor/product guards, but an
accepted device is sent a `GET_MODE` vendor-specific control transfer
(`bRequest = 0x45`, `data_or_wLength = 4`) whose result is printed. -/
def USB.handle_device (device : Device) : List Effect :=
  if device.idVendor ≠ VID_APPLE then
    []
  else if (device.idProduct ≠ PID_APPLE_T2_COPROCESSOR) ∧
      ((device.idProduct < PID_APPLE_SILICON_RESTORE_LOW) ∨
       (device.idProduct > PID_APPLE_SILICON_RESTORE_MAX)) ∧
      ((device.idProduct < PID_RANGE_LOW) ∨
       (device.idProduct > PID_RANGE_MAX)) then
    []
  else
    let request_type := LibUSBRequestType.VENDOR ||| LibUSBEndpointDirection.IN |||
      LibUSBRequestRecipient.DEVICE
    [Effect.ctrlTransfer request_type APPLE_VEND_SPECIFIC_GET_MODE 0 0
      (DataOrLength.length 4)]

/-- `USB.discover` from `usbmux.py`: enumerate and run `_handle_device` on
each device; the trace is the concatenation of the per-device traces. -/
def USB.discover (devices : Option (List Device)) : List Effect :=
  match devices with
  | none => []
  | some ds => (ds.map USB.handle_device).flatten

/-! Spec-side predicates (from the spec's words, for the refinement claims
about the classifier and the scanner filter). -/

/-- Spec wording: configuration contains an interface with
class=255, subclass=42, protocol=255 (Valeria video-capture companion). -/
def specHasValeria (cfg : Configuration) : Prop :=
  ∃ i ∈ cfg.interfaces,
    i.bInterfaceClass = 255 ∧ i.bInterfaceSubClass = 42 ∧ i.bInterfaceProtocol = 255

/-- Spec wording: configuration contains an interface with
class=2, subclass=0x0d (CDC-NCM networking). -/
def specHasCdcNcm (cfg : Configuration) : Prop :=
  ∃ i ∈ cfg.interfaces, i.bInterfaceClass = 2 ∧ i.bInterfaceSubClass = 0xd

/-- Spec wording: configuration contains the usbmux interface signature
class=255, subclass=254, protocol=2. -/
def specHasUsbmux (cfg : Configuration) : Prop :=
  ∃ i ∈ cfg.interfaces,
    i.bInterfaceClass = 255 ∧ i.bInterfaceSubClass = 254 ∧ i.bInterfaceProtocol = 2

/-- Spec wording for the scanner filter: vendor id is Apple's 0x05AC and the
product id lies in one of the three accepted ranges. -/
def specAccepted (d : Device) : Prop :=
  d.idVendor = 0x5ac ∧
    (d.idProduct = 0x8600 ∨
     (0x1901 ≤ d.idProduct ∧ d.idProduct ≤ 0x1905) ∨
     (0x1290 ≤ d.idProduct ∧ d.idProduct ≤ 0x12af))

instance (cfg : Configuration) : Decidable (specHasValeria cfg) := by
  unfold specHasValeria; infer_instance

instance (cfg : Configuration) : Decidable (specHasCdcNcm cfg) := by
  unfold specHasCdcNcm; infer_instance

instance (cfg : Configuration) : Decidable (specHasUsbmux cfg) := by
  unfold specHasUsbmux; infer_instance

instance (d : Device) : Decidable (specAccepted d) := by
  unfold specAccepted; infer_instance

/-! Concrete sample descriptors and devices, used by the witnesses. -/

/-- An interface carrying the Valeria signature. -/
def valeriaInterface : Interface := ⟨255, 42, 255, 0, 0, []⟩

/-- An interface carrying the CDC-NCM signature. -/
def cdcNcmInterface : Interface := ⟨2, 0xd, 0, 1, 0, []⟩

/-- An interface carrying the usbmux signature. -/
def usbmuxInterface : Interface := ⟨255, 254, 2, 2, 0, []⟩

/-- An interface matching none of the three signatures. -/
def blankInterface : Interface := ⟨1, 1, 1, 3, 0, []⟩

/-- A configuration with no interfaces. -/
def blankConfig : Configuration := ⟨1, []⟩

/-- A fifth configuration carrying Valeria plus usbmux. -/
def sampleValeriaConfig : Configuration := ⟨5, [valeriaInterface, usbmuxInterface]⟩

/-- A fifth configuration carrying CDC-NCM plus usbmux. -/
def sampleCdcNcmConfig : Configuration := ⟨5, [cdcNcmInterface, usbmuxInterface]⟩

/-- An Apple device in Valeria mode (5 configurations, the fifth carrying
the Valeria and usbmux interfaces). -/
def sampleValeriaDevice : Device :=
  ⟨0x5ac, 0x12a8, 1, 2, "S1", 7,
    [blankConfig, blankConfig, blankConfig, blankConfig, sampleValeriaConfig]⟩

/-- An Apple T2 coprocessor (product id 0x8600). -/
def sampleT2 : Device := ⟨0x5ac, 0x8600, 1, 3, "T2", 8, [blankConfig]⟩

/-- An Apple-vendor device whose product id 0x1000 lies outside all three
accepted ranges. -/
def sampleRejected : Device := ⟨0x5ac, 0x1000, 1, 4, "RJ", 9, [blankConfig]⟩

/-- A non-Apple device. -/
def sampleForeign : Device := ⟨0x1234, 0x8600, 1, 5, "FG", 10, [blankConfig]⟩

/-! Helper lemmas relating the flag-setting loop to existential searches. -/

/-- Folding `scanStep` from an arbitrary flag triple computes the
disjunction of the initial flags with the three signature searches. -/
theorem scanStep_foldl (l : List Interface) :
    ∀ a b c : Bool, l.foldl scanStep (a, b, c) =
      (a || l.any isValeriaInterface, b || l.any isCdcNcmInterface,
       c || l.any isUsbmuxInterface) := by
  induction l with
  | nil => intro a b c; simp
  | cons i t ih =>
    intro a b c
    simp only [List.foldl_cons, List.any_cons, scanStep]
    rw [ih]
    simp [Bool.or_assoc]

/-- The flag triple of `scanInterfaces` is the triple of signature
searches. -/
theorem scanInterfaces_eq_any (l : List Interface) :
    scanInterfaces l =
      (l.any isValeriaInterface, l.any isCdcNcmInterface, l.any isUsbmuxInterface) := by
  simpa using scanStep_foldl l false false false

/-- The code's Valeria search agrees with the spec's existential. -/
theorem specHasValeria_iff_any (cfg : Configuration) :
    specHasValeria cfg ↔ cfg.interfaces.any isValeriaInterface = true := by
  simp [specHasValeria, isValeriaInterface, List.any_eq_true, INTERFACE_CLASS,
    and_assoc]

/-- The code's CDC-NCM search agrees with the spec's existential. -/
theorem specHasCdcNcm_iff_any (cfg : Configuration) :
    specHasCdcNcm cfg ↔ cfg.interfaces.any isCdcNcmInterface = true := by
  simp [specHasCdcNcm, isCdcNcmInterface, List.any_eq_true]

/-- The code's usbmux search agrees with the spec's existential. -/
theorem specHasUsbmux_iff_any (cfg : Configuration) :
    specHasUsbmux cfg ↔ cfg.interfaces.any isUsbmuxInterface = true := by
  simp [specHasUsbmux, isUsbmuxInterface, List.any_eq_true, INTERFACE_CLASS,
    INTERFACE_SUBCLASS, INTERFACE_PROTOCOL, and_assoc]

/-- On a device with exactly 5 configurations whose fifth is `cfg`, the
getter reduces to the three-flag decision on `cfg`. -/
theorem mode_of_five (d : Device) (cfg : Configuration)
    (h5 : d.configurations.length = 5) (hcfg : d.configurations[4]? = some cfg) :
    IDevice.mode d =
      (if cfg.interfaces.any isValeriaInterface && cfg.interfaces.any isUsbmuxInterface then
        .ok (some Mode.VALERIA)
      else if cfg.interfaces.any isCdcNcmInterface && cfg.interfaces.any isUsbmuxInterface then
        .ok (some Mode.CDC_NCM)
      else .ok none) := by
  unfold IDevice.mode
  rw [if_neg (by omega), if_neg (by omega), hcfg]
  simp only [scanInterfaces_eq_any]

/-- C1: the mode classifier follows the spec's algorithm: `INITIAL` for at
most 4 configurations; no value when the count is neither `≤ 4` nor `= 5`;
for exactly 5 configurations, `VALERIA` when the fifth configuration has
the Valeria and usbmux signatures (taking priority over CDC-NCM),
`CDC_NCM` when it has the CDC-NCM and usbmux signatures without Valeria,
and no value otherwise. -/
theorem mode_implements_spec_classifier (d : Device) :
    (d.configurations.length ≤ 4 → IDevice.mode d = .ok (some Mode.INITIAL)) ∧
    (¬ d.configurations.length ≤ 4 → d.configurations.length ≠ 5 →
      IDevice.mode d = .ok none) ∧
    (∀ cfg, d.configurations.length = 5 → d.configurations[4]? = some cfg →
      ((specHasValeria cfg ∧ specHasUsbmux cfg →
          IDevice.mode d = .ok (some Mode.VALERIA)) ∧
       (specHasCdcNcm cfg ∧ specHasUsbmux cfg ∧ ¬ specHasValeria cfg →
          IDevice.mode d = .ok (some Mode.CDC_NCM)) ∧
       (¬ (specHasValeria cfg ∧ specHasUsbmux cfg) →
        ¬ (specHasCdcNcm cfg ∧ specHasUsbmux cfg) →
          IDevice.mode d = .ok none))) := by
  refine ⟨?_, ?_, ?_⟩
  · intro h
    unfold IDevice.mode
    rw [if_pos h]
  · intro h1 h2
    unfold IDevice.mode
    rw [if_neg h1, if_pos h2]
  · intro cfg h5 hcfg
    rw [specHasValeria_iff_any, specHasCdcNcm_iff_any, specHasUsbmux_iff_any]
    rw [mode_of_five d cfg h5 hcfg]
    refine ⟨?_, ?_, ?_⟩
    · rintro ⟨hv, hu⟩
      rw [if_pos (by rw [hv, hu]; rfl)]
    · rintro ⟨hc, hu, hnv⟩
      have hv : cfg.interfaces.any isValeriaInterface = false :=
        Bool.not_eq_true _ ▸ hnv
      rw [if_neg (by rw [hv, hu]; simp), if_pos (by rw [hc, hu]; rfl)]
    · intro hnvu hncu
      have hvu : (cfg.interfaces.any isValeriaInterface &&
          cfg.interfaces.any isUsbmuxInterface) = false := by
        cases hA : cfg.interfaces.any isValeriaInterface <;>
          cases hB : cfg.interfaces.any isUsbmuxInterface <;> simp_all
      have hcu : (cfg.interfaces.any isCdcNcmInterface &&
          cfg.interfaces.any isUsbmuxInterface) = false := by
        cases hA : cfg.interfaces.any isCdcNcmInterface <;>
          cases hB : cfg.interfaces.any isUsbmuxInterface <;> simp_all
      rw [if_neg (by rw [hvu]; simp), if_neg (by rw [hcu]; simp)]

/-- C1 witness: on the concrete Valeria device the third branch of the
classifier theorem yields `VALERIA`. -/
theorem mode_implements_spec_classifier_witness :
    IDevice.mode sampleValeriaDevice = .ok (some Mode.VALERIA) :=
  ((mode_implements_spec_classifier sampleValeriaDevice).2.2 sampleValeriaConfig
    (by decide) (by decide)).1 ⟨by decide, by decide⟩

/-- C9: the getter is total: on every descriptor snapshot it returns
without an `IndexError`, and the value is `INITIAL`, `VALERIA`, `CDC_NCM`
or no value. -/
theorem mode_total_no_index_error (d : Device) :
    ∃ r, IDevice.mode d = .ok r ∧
      (r = some Mode.INITIAL ∨ r = some Mode.VALERIA ∨ r = some Mode.CDC_NCM ∨
       r = none) := by
  by_cases h1 : d.configurations.length ≤ 4
  · exact ⟨some Mode.INITIAL, by unfold IDevice.mode; rw [if_pos h1], Or.inl rfl⟩
  · by_cases h2 : d.configurations.length = 5
    · have h4 : 4 < d.configurations.length := by omega
      have hcfg : d.configurations[4]? = some (d.configurations.get ⟨4, h4⟩) := by
        rw [List.getElem?_eq_getElem h4]
        rfl
      rw [mode_of_five d _ h2 hcfg]
      by_cases hv : ((d.configurations.get ⟨4, h4⟩).interfaces.any isValeriaInterface &&
          (d.configurations.get ⟨4, h4⟩).interfaces.any isUsbmuxInterface) = true
      · exact ⟨some Mode.VALERIA, by rw [if_pos hv], Or.inr (Or.inl rfl)⟩
      · by_cases hc : ((d.configurations.get ⟨4, h4⟩).interfaces.any isCdcNcmInterface &&
            (d.configurations.get ⟨4, h4⟩).interfaces.any isUsbmuxInterface) = true
        · exact ⟨some Mode.CDC_NCM, by rw [if_neg hv, if_pos hc],
            Or.inr (Or.inr (Or.inl rfl))⟩
        · exact ⟨none, by rw [if_neg hv, if_neg hc],
            Or.inr (Or.inr (Or.inr rfl))⟩
    · exact ⟨none, by unfold IDevice.mode; rw [if_neg h1, if_pos h2],
        Or.inr (Or.inr (Or.inr rfl))⟩

/-- The product-id guard of `_handle_device` is exactly the negation of the
spec's three accepted ranges. -/
theorem pid_guard_iff (d : Device) :
    ((d.idProduct ≠ PID_APPLE_T2_COPROCESSOR) ∧
      ((d.idProduct < PID_APPLE_SILICON_RESTORE_LOW) ∨
       (d.idProduct > PID_APPLE_SILICON_RESTORE_MAX)) ∧
      ((d.idProduct < PID_RANGE_LOW) ∨ (d.idProduct > PID_RANGE_MAX))) ↔
    ¬ (d.idProduct = 0x8600 ∨
       (0x1901 ≤ d.idProduct ∧ d.idProduct ≤ 0x1905) ∨
       (0x1290 ≤ d.idProduct ∧ d.idProduct ≤ 0x12af)) := by
  simp only [PID_APPLE_T2_COPROCESSOR, PID_APPLE_SILICON_RESTORE_LOW,
    PID_APPLE_SILICON_RESTORE_MAX, PID_RANGE_LOW, PID_RANGE_MAX, gt_iff_lt,
    ne_eq]
  omega

/-- C2: a device enters the registry exactly when its vendor id is 0x05AC
and its product id is 0x8600, in 0x1901-0x1905, or in 0x1290-0x12AF;
all other devices leave the registry untouched. -/
theorem scanner_accepts_iff (st : Registry) (d : Device) :
    (specAccepted d →
      UsbManager.handle_device st d =
        (.ok (dictInsert st d.serial_number ⟨d⟩), [])) ∧
    (¬ specAccepted d →
      UsbManager.handle_device st d = (.ok st, [])) := by
  constructor
  · rintro ⟨hv, hp⟩
    unfold UsbManager.handle_device
    rw [if_neg (by simp [VID_APPLE, hv]), if_neg (fun hguard => (pid_guard_iff d).mp hguard hp)]
    rfl
  · intro hn
    unfold UsbManager.handle_device
    by_cases hv : d.idVendor = VID_APPLE
    · have hp : ¬ (d.idProduct = 0x8600 ∨
          (0x1901 ≤ d.idProduct ∧ d.idProduct ≤ 0x1905) ∨
          (0x1290 ≤ d.idProduct ∧ d.idProduct ≤ 0x12af)) := by
        intro hp
        exact hn ⟨by simpa [VID_APPLE] using hv, hp⟩
      rw [if_neg (by simp [hv]), if_pos ((pid_guard_iff d).mpr hp)]
    · rw [if_pos hv]

/-- C2 witness: the T2 coprocessor is inserted, the 0x1000 product id and a
foreign vendor id are both rejected. -/
theorem scanner_accepts_iff_witness :
    UsbManager.handle_device [] sampleT2 =
      (.ok (dictInsert [] sampleT2.serial_number ⟨sampleT2⟩), []) ∧
    UsbManager.handle_device [] sampleRejected = (.ok [], []) ∧
    UsbManager.handle_device [] sampleForeign = (.ok [], []) :=
  ⟨(scanner_accepts_iff [] sampleT2).1 (by decide),
   (scanner_accepts_iff [] sampleRejected).2 (by decide),
   (scanner_accepts_iff [] sampleForeign).2 (by decide)⟩

/-- C3: for every target mode the setter issues exactly one control transfer
with `bmRequestType = 0xC0` (VENDOR | DEVICE | IN), `bRequest = 0x52`,
`wValue = 0`, `wIndex` the mode's integer value (1, 2 or 3), and a bare
length 1 with no data payload. -/
theorem set_mode_control_transfer (d : Device) (m : Mode) :
    IDevice.mode_set d (Int.ofNat m.value) =
      [Effect.ctrlTransfer 0xC0 0x52 0 (Int.ofNat m.value)
        (DataOrLength.length 1)] ∧
    (0xC0 : Nat) = (LibUSBRequestType.VENDOR ||| LibUSBEndpointDirection.IN |||
      LibUSBRequestRecipient.DEVICE) ∧
    (0x52 : Nat) = APPLE_VEND_SPECIFIC_SET_MODE ∧
    Mode.INITIAL.value = 1 ∧ Mode.VALERIA.value = 2 ∧ Mode.CDC_NCM.value = 3 :=
  ⟨rfl, by decide, rfl, rfl, rfl, rfl⟩

/-- C8: the setter validates nothing: any integer, also one outside the
defined mode values, is forwarded verbatim as `wIndex`. -/
theorem mode_setter_no_validation (d : Device) (v : Int) :
    IDevice.mode_set d v =
      [Effect.ctrlTransfer 0xC0 0x52 0 v (DataOrLength.length 1)] := rfl

/-- C10: `send` writes the device's backend object whatever the data
argument is, so the caller's bytes are never transmitted. -/
theorem send_ignores_data (d : Device) (data1 data2 : List Nat) :
    IDevice.send d data1 = IDevice.send d data2 ∧
    IDevice.send d data1 = [Effect.usbWrite (WriteArg.backendObj d.backend)] ∧
    ∀ bs, WriteArg.backendObj d.backend ≠ WriteArg.bytes bs :=
  ⟨rfl, rfl, fun _bs h => WriteArg.noConfusion h⟩

/-- C7: constructing an `IDevice` performs no work: the configuration
selection returns immediately, the effect trace is empty (no detach, no
`set_configuration`) and no `PyUsbMuxException` is raised. -/
theorem idevice_init_short_circuit (d : Device) :
    IDevice.init d = (.ok (⟨d⟩ : IDevice), []) ∧
    IDevice.set_valid_configuration d = (.ok (), []) ∧
    (∀ e, e ∈ (IDevice.init d).2 → False) ∧
    (∀ msg, (IDevice.init d).1 ≠ Except.error (PyError.pyUsbMuxException msg)) := by
  refine ⟨rfl, rfl, ?_, ?_⟩
  · intro e he
    simp [IDevice.init, IDevice.set_valid_configuration] at he
  · intro msg h
    simp [IDevice.init, IDevice.set_valid_configuration] at h

/-- C5 counterexample: on the unknown name "BOGUS" the lookup raises the
built-in `ValueError('invalid mode name')`, not `InvalidModeNameError`. -/
theorem create_from_name_raises_value_error :
    Mode.create_from_name "BOGUS" =
      .error (PyError.valueError "invalid mode name") ∧
    Mode.create_from_name "BOGUS" ≠ .error PyError.invalidModeNameError := by
  refine ⟨rfl, fun h => ?_⟩
  rw [show Mode.create_from_name "BOGUS" =
      .error (PyError.valueError "invalid mode name") from rfl] at h
  exact PyError.noConfusion (Except.error.inj h)

/-- C5 (amended): every member's name round-trips through
`create_from_name`, and every string that is no member's name fails with
the built-in `ValueError('invalid mode name')`. -/
theorem create_from_name_round_trip (m : Mode) (s : String)
    (h : ∀ k ∈ Mode.members, k.name ≠ s) :
    Mode.create_from_name m.name = .ok m ∧
    Mode.create_from_name s = .error (PyError.valueError "invalid mode name") := by
  constructor
  · cases m <;> rfl
  · unfold Mode.create_from_name
    have hfind : Mode.members.find? (fun k => k.name == s) = none := by
      apply List.find?_eq_none.mpr
      intro k hk
      simpa using h k hk
    rw [hfind]

/-- C5 witness: `INITIAL` round-trips and "BOGUS" fails with the
`ValueError`. -/
theorem create_from_name_round_trip_witness :
    Mode.create_from_name (Mode.name Mode.INITIAL) = .ok Mode.INITIAL ∧
    Mode.create_from_name "BOGUS" =
      .error (PyError.valueError "invalid mode name") :=
  create_from_name_round_trip Mode.INITIAL "BOGUS" (by decide)

/-- `_handle_device` either leaves the registry alone or inserts the wrapped
device under its serial number; in both cases the effect trace is empty. -/
theorem handle_device_cases (st : Registry) (d : Device) :
    UsbManager.handle_device st d = (.ok st, []) ∨
    UsbManager.handle_device st d =
      (.ok (dictInsert st d.serial_number ⟨d⟩), []) := by
  unfold UsbManager.handle_device
  split
  · exact Or.inl rfl
  · split
    · exact Or.inl rfl
    · exact Or.inr rfl

/-- A key present in a registry is still present after a `dict` insertion. -/
theorem keys_dictInsert (st : Registry) (k : String) (v : IDevice) (k2 : String)
    (h : k2 ∈ keys st) : k2 ∈ keys (dictInsert st k v) := by
  unfold dictInsert
  split
  · have heq : keys (st.map (fun p => if p.1 = k then (k, v) else p)) = keys st := by
      unfold keys
      rw [List.map_map]
      apply List.map_congr_left
      intro p _hp
      by_cases hpk : p.1 = k
      · simp [hpk]
      · simp [hpk]
    rw [heq]
    exact h
  · unfold keys at h ⊢
    simp only [List.map_append]
    exact List.mem_append_left _ h

/-- The scan loop never raises, produces no effects, and never drops a
registry key. -/
theorem update_loop_ok (ds : List Device) : ∀ st : Registry,
    ∃ st2, UsbManager.update_loop st ds = (.ok st2, []) ∧
      ∀ k, k ∈ keys st → k ∈ keys st2 := by
  induction ds with
  | nil => exact fun st => ⟨st, rfl, fun _k h => h⟩
  | cons d rest ih =>
    intro st
    rcases handle_device_cases st d with h | h
    · obtain ⟨st2, hloop, hkeys⟩ := ih st
      exact ⟨st2, by simp [UsbManager.update_loop, h, hloop], hkeys⟩
    · obtain ⟨st2, hloop, hkeys⟩ := ih (dictInsert st d.serial_number ⟨d⟩)
      exact ⟨st2, by simp [UsbManager.update_loop, h, hloop],
        fun k hk => hkeys k (keys_dictInsert st d.serial_number ⟨d⟩ k hk)⟩

/-- C6: scanning never removes a registry key (entries are only added or
overwritten), never raises, and on an absent or empty enumeration leaves
the registry unchanged — in particular a first scan over an empty device
list yields an empty registry. -/
theorem update_preserves_keys (st : Registry) (devices : Option (List Device)) :
    (∀ st2, (UsbManager.update_device_list st devices).1 = .ok st2 →
       ∀ k, k ∈ keys st → k ∈ keys st2) ∧
    (∃ st2, (UsbManager.update_device_list st devices).1 = .ok st2) ∧
    UsbManager.update_device_list st none = (.ok st, []) ∧
    UsbManager.update_device_list st (some []) = (.ok st, []) ∧
    UsbManager.update_device_list [] (some []) = (.ok [], []) := by
  refine ⟨?_, ?_, rfl, rfl, rfl⟩
  · intro st2 h k hk
    cases devices with
    | none =>
      have hst : st = st2 := by simpa [UsbManager.update_device_list] using h
      exact hst ▸ hk
    | some ds =>
      obtain ⟨st3, hloop, hkeys⟩ := update_loop_ok ds st
      have h2 : (UsbManager.update_device_list st (some ds)).1 = .ok st3 := by
        simp [UsbManager.update_device_list, hloop]
      rw [h2] at h
      exact Except.ok.inj h ▸ hkeys k hk
  · cases devices with
    | none => exact ⟨st, rfl⟩
    | some ds =>
      obtain ⟨st3, hloop, _⟩ := update_loop_ok ds st
      exact ⟨st3, by simp [UsbManager.update_device_list, hloop]⟩

/-- C6 witness: scanning a one-device list on a registry holding key "T2"
keeps "T2" present. -/
theorem update_preserves_keys_witness :
    "T2" ∈ keys
      (dictInsert [("T2", (⟨sampleT2⟩ : IDevice))]
        sampleValeriaDevice.serial_number ⟨sampleValeriaDevice⟩) :=
  (update_preserves_keys [("T2", ⟨sampleT2⟩)] (some [sampleValeriaDevice])).1
    (dictInsert [("T2", ⟨sampleT2⟩)] sampleValeriaDevice.serial_number
      ⟨sampleValeriaDevice⟩)
    rfl "T2" (by decide)

/-- C4 counterexample: `USB.discover` from `usbmux.py` does issue I/O: on a
device list holding one accepted device its trace is a GET_MODE control
transfer, not empty. -/
theorem discover_issues_transfer :
    USB.discover (some [sampleT2]) =
      [Effect.ctrlTransfer 0xC0 APPLE_VEND_SPECIFIC_GET_MODE 0 0
        (DataOrLength.length 4)] ∧
    USB.discover (some [sampleT2]) ≠ [] := by
  refine ⟨by decide, fun h => ?_⟩
  rw [show USB.discover (some [sampleT2]) =
      [Effect.ctrlTransfer 0xC0 APPLE_VEND_SPECIFIC_GET_MODE 0 0
        (DataOrLength.length 4)] from by decide] at h
  exact List.noConfusion h

/-- C4 (amended): `UsbManager.update_device_list` has no side effect beyond
registry updates — its effect trace is empty on every device list (no
configuration change, no control transfer); the legacy `USB.discover`
scanner, by contrast, issues one GET_MODE control transfer to every
accepted device and none to rejected ones. -/
theorem scan_no_side_effects (st : Registry) (devices : Option (List Device)) :
    (UsbManager.update_device_list st devices).2 = [] ∧
    (∀ d : Device, specAccepted d →
      USB.handle_device d =
        [Effect.ctrlTransfer 0xC0 APPLE_VEND_SPECIFIC_GET_MODE 0 0
          (DataOrLength.length 4)]) ∧
    (∀ d : Device, ¬ specAccepted d → USB.handle_device d = []) := by
  refine ⟨?_, ?_, ?_⟩
  · cases devices with
    | none => rfl
    | some ds =>
      obtain ⟨st2, hloop, _⟩ := update_loop_ok ds st
      simp [UsbManager.update_device_list, hloop]
  · rintro d ⟨hv, hp⟩
    unfold USB.handle_device
    rw [if_neg (by simp [VID_APPLE, hv]),
      if_neg (fun hguard => (pid_guard_iff d).mp hguard hp)]
    rfl
  · intro d hn
    unfold USB.handle_device
    by_cases hv : d.idVendor = VID_APPLE
    · have hp : ¬ (d.idProduct = 0x8600 ∨
          (0x1901 ≤ d.idProduct ∧ d.idProduct ≤ 0x1905) ∨
          (0x1290 ≤ d.idProduct ∧ d.idProduct ≤ 0x12af)) := by
        intro hp
        exact hn ⟨by simpa [VID_APPLE] using hv, hp⟩
      rw [if_neg (by simp [hv]), if_pos ((pid_guard_iff d).mpr hp)]
    · rw [if_pos hv]

/-- C4 witness: over a concrete one-device list the manager's trace is
empty while the accepted T2 gets exactly the GET_MODE transfer. -/
theorem scan_no_side_effects_witness :
    (UsbManager.update_device_list [] (some [sampleT2])).2 = [] ∧
    USB.handle_device sampleT2 =
      [Effect.ctrlTransfer 0xC0 APPLE_VEND_SPECIFIC_GET_MODE 0 0
        (DataOrLength.length 4)] :=
  ⟨(scan_no_side_effects [] (some [sampleT2])).1,
   (scan_no_side_effects [] (some [sampleT2])).2.1 sampleT2 (by decide)⟩

end Pyusbmuxd
